import Mathlib

/-!
Verification of the trade-execution and risk-gating logic of a crypto
spot-trading bot, as a shallow embedding in Lean 4.  Prices, quantities
and balances are modelled as exact rationals (`ℚ`); every definition is
translated from the corresponding function of the Python source, with
the source file and line ranges cited in its doc comment.
-/

/-! ## risk_engine.py : data model -/

/-- One entry of `RiskManager.trade_history` (risk_engine.py lines 152-163). -/
structure TradeRecord where
  timestamp : ℚ
  symbol : String
  side : String
  quantity : ℚ
  price : ℚ
  entryPrice : ℚ
  pnlUsd : ℚ
  pnlPct : ℚ
  isWin : Bool
  balance : ℚ
deriving Repr, DecidableEq

/-- The mutable fields of `RiskManager` (risk_engine.py lines 12-31).
`lastReset` is a calendar-day ordinal, `lastTradeTime` a seconds timestamp,
`cooldownPeriodSecs` the value of `cooldown_period.total_seconds()`
(30 minutes = 1800 s, line 30). -/
structure RiskState where
  maxDrawdown : ℚ
  maxDailyTrades : ℕ
  dailyTrades : ℕ
  dailyPnl : ℚ
  totalPnl : ℚ
  totalTrades : ℕ
  winningTrades : ℕ
  losingTrades : ℕ
  consecutiveWins : ℕ
  consecutiveLosses : ℕ
  maxConsecutiveWins : ℕ
  maxConsecutiveLosses : ℕ
  peakBalance : ℚ
  maxDrawdownPct : ℚ
  tradeHistory : List TradeRecord
  lastTradeTime : Option ℚ
  lastReset : ℕ
  cooldownPeriodSecs : ℚ
deriving Repr, DecidableEq

/-- `RiskManager.__init__` (risk_engine.py lines 12-31): all counters zero,
empty history, no last trade, cooldown period of 1800 seconds. -/
def initRiskState (maxDrawdown : ℚ) (maxDailyTrades : ℕ) (today : ℕ) : RiskState :=
  { maxDrawdown := maxDrawdown
    maxDailyTrades := maxDailyTrades
    dailyTrades := 0
    dailyPnl := 0
    totalPnl := 0
    totalTrades := 0
    winningTrades := 0
    losingTrades := 0
    consecutiveWins := 0
    consecutiveLosses := 0
    maxConsecutiveWins := 0
    maxConsecutiveLosses := 0
    peakBalance := 0
    maxDrawdownPct := 0
    tradeHistory := []
    lastTradeTime := none
    lastReset := today
    cooldownPeriodSecs := 1800 }

/-- The ambient wall clock observed by one `can_trade()` call:
`datetime.now().date()`, `datetime.now().time()` (hour and minute),
`datetime.now()` as a seconds timestamp, and `datetime.now().weekday()`. -/
structure Clock where
  date : ℕ
  timeHour : ℕ
  timeMinute : ℕ
  nowSecs : ℚ
  weekday : ℕ
deriving Repr, DecidableEq

/-! ## risk_engine.py : the name binding of `time`

risk_engine.py line 2 is `import time` and line 3 is
`from datetime import datetime, timedelta`; the name `time` in the module
namespace is therefore bound to the `time` *module*, not to the class
`datetime.time`.  Calling a module object in Python raises `TypeError`. -/

/-- The Python runtime values that occur while evaluating `can_trade`:
a module object, the `datetime.time` class object, and a constructed
time-of-day instance. -/
inductive PyValue where
  | module (name : String)
  | timeClass
  | timeOfDay (hour minute : ℕ)
deriving Repr, DecidableEq

/-- The Python exceptions relevant to risk_engine.py. -/
inductive PyError where
  | typeError
  | nameError
  | zeroDivision
deriving Repr, DecidableEq

/-- Module-level name bindings of risk_engine.py used inside `can_trade`:
line 2 `import time` binds `time` to the time module (line 3 imports only
`datetime` and `timedelta` from the datetime module, not `datetime.time`). -/
def riskEngineGlobal : String → Except PyError PyValue
  | "time" => .ok (.module "time")
  | "datetime" => .ok (.module "datetime")
  | _ => .error .nameError

/-- Python call semantics for the values above, applied to two integer
arguments as in `time(9, 0)`: a module object is not callable and raises
`TypeError`; the class `datetime.time` constructs a time of day. -/
def callValue : PyValue → ℕ → ℕ → Except PyError PyValue
  | .module _, _, _ => .error .typeError
  | .timeClass, h, m => .ok (.timeOfDay h m)
  | .timeOfDay _ _, _, _ => .error .typeError

/-- Python `<=` between two `datetime.time` values (minute resolution);
comparing a time with a non-time raises `TypeError`. -/
def timeLe : PyValue → PyValue → Except PyError Bool
  | .timeOfDay h1 m1, .timeOfDay h2 m2 =>
      .ok (decide (h1 < h2 ∨ (h1 = h2 ∧ m1 ≤ m2)))
  | _, _ => .error .typeError

/-! ## risk_engine.py : can_trade -/

/-- `RiskManager._check_daily_reset` (risk_engine.py lines 232-242):
when the current date differs from `last_reset`, zero the daily counters,
record the new date, and clear `last_trade_time`. -/
def checkDailyReset (s : RiskState) (today : ℕ) : RiskState :=
  if today ≠ s.lastReset then
    { s with dailyTrades := 0, dailyPnl := 0, lastReset := today, lastTradeTime := none }
  else s

/-- The dynamic cooldown of `can_trade` (risk_engine.py lines 43-49):
`base_cooldown *= 1 + consecutive_losses * 0.5` when
`consecutive_losses >= 2`, else the base cooldown unchanged. -/
def requiredCooldown (base : ℚ) (consecutiveLosses : ℕ) : ℚ :=
  if 2 ≤ consecutiveLosses then base * (1 + (consecutiveLosses : ℚ) * (1 / 2)) else base

/-- The cooldown test of `can_trade` (risk_engine.py lines 52-61): active
when a last trade time exists and the elapsed seconds are below the
required cooldown. -/
def cooldownActive (lastTradeTime : Option ℚ) (nowSecs base : ℚ) : Bool :=
  match lastTradeTime with
  | none => false
  | some t => decide (nowSecs - t < base)

/-- Labels for the successive checks of `can_trade`, in source order. -/
inductive RiskCheck where
  | dailyReset
  | tradingHours
  | cooldown
  | dailyLimit
  | drawdown
  | weekday
deriving Repr, DecidableEq

/-- The checks of `can_trade` after the trading-hours guard
(risk_engine.py lines 43-88): cooldown, daily trade limit, drawdown limit,
weekday restriction, each returning `false` on failure; `true` otherwise.
Returns the executed checks together with the boolean result. -/
def canTradeRest (s : RiskState) (c : Clock) (trace : List RiskCheck) :
    List RiskCheck × Bool :=
  let base := requiredCooldown s.cooldownPeriodSecs s.consecutiveLosses
  let trace := trace ++ [RiskCheck.cooldown]
  if cooldownActive s.lastTradeTime c.nowSecs base then (trace, false)
  else
    let trace := trace ++ [RiskCheck.dailyLimit]
    if s.maxDailyTrades ≤ s.dailyTrades then (trace, false)
    else
      let trace := trace ++ [RiskCheck.drawdown]
      if s.dailyPnl ≤ -|s.maxDrawdown * 100| then (trace, false)
      else
        let trace := trace ++ [RiskCheck.weekday]
        if c.weekday = 0 ∨ (c.weekday = 4 ∧ 15 ≤ c.timeHour) then (trace, false)
        else (trace, true)

/-- `RiskManager.can_trade` (risk_engine.py lines 33-88).  It first runs
`_check_daily_reset` (line 35), then evaluates the trading-hours guard
`time(9, 0) <= current_time <= time(16, 0)` (line 39), where the name
`time` resolves through `riskEngineGlobal`.  A raised exception propagates
out; otherwise the remaining checks (`canTradeRest`) run.  Returns the
updated state, the trace of checks reached, and either the boolean result
or the Python exception. -/
def canTrade (s : RiskState) (c : Clock) :
    RiskState × List RiskCheck × Except PyError Bool :=
  let s1 := checkDailyReset s c.date
  let trace := [RiskCheck.dailyReset, RiskCheck.tradingHours]
  match riskEngineGlobal "time" with
  | .error e => (s1, trace, .error e)
  | .ok timeName =>
    match callValue timeName 9 0 with
    | .error e => (s1, trace, .error e)
    | .ok lo =>
      match timeLe lo (.timeOfDay c.timeHour c.timeMinute) with
      | .error e => (s1, trace, .error e)
      | .ok loOk =>
        if !loOk then (s1, trace, .ok false)
        else
          match callValue timeName 16 0 with
          | .error e => (s1, trace, .error e)
          | .ok hi =>
            match timeLe (.timeOfDay c.timeHour c.timeMinute) hi with
            | .error e => (s1, trace, .error e)
            | .ok hiOk =>
              if !hiOk then (s1, trace, .ok false)
              else
                let r := canTradeRest s1 c trace
                (s1, r.1, .ok r.2)

/-- Concrete `RiskManager` state whose daily trade limit is reached:
3 trades recorded against a maximum of 3, no cooldown pending. -/
def dailyLimitState : RiskState :=
  { initRiskState (1 / 20) 3 100 with dailyTrades := 3 }

/-- A concrete call time: same calendar day 100, 10:00, a Wednesday. -/
def clock0 : Clock :=
  { date := 100, timeHour := 10, timeMinute := 0, nowSecs := 1000000, weekday := 2 }

/-! ## Claims C1, C2, C3 -/

/-- C1: for every `RiskManager` state and call time, `can_trade()` raises
`TypeError` before reaching the cooldown, daily-limit or drawdown checks:
the trace stops at the trading-hours guard, whose `time(9, 0)` calls the
`time` module bound by `import time`, and the call never returns a
boolean. -/
theorem c1_can_trade_raises (s : RiskState) (c : Clock) :
    (canTrade s c).2.2 = Except.error PyError.typeError ∧
    (canTrade s c).2.1 = [RiskCheck.dailyReset, RiskCheck.tradingHours] ∧
    riskEngineGlobal "time" = Except.ok (PyValue.module "time") ∧
    ∀ b : Bool, (canTrade s c).2.2 ≠ Except.ok b := by
  refine ⟨rfl, rfl, rfl, ?_⟩
  intro b h
  exact Except.noConfusion h

/-- C2 (code bug): with the daily trade limit reached (3 of 3) the code
does not return `false` as the spec states; `can_trade()` raises
`TypeError` at the trading-hours guard instead.  Had control reached the
checks after that guard (`canTradeRest`, risk_engine.py lines 43-88), the
daily-limit check would indeed have produced `false`. -/
theorem c2_daily_limit_unreached :
    (canTrade dailyLimitState clock0).2.2 = Except.error PyError.typeError ∧
    (canTrade dailyLimitState clock0).2.2 ≠ Except.ok false ∧
    (canTradeRest (checkDailyReset dailyLimitState clock0.date) clock0
      [RiskCheck.dailyReset, RiskCheck.tradingHours]).2 = false := by
  refine ⟨rfl, ?_, by decide⟩
  intro h
  exact Except.noConfusion h

/-- C3 (code bug): with `baseCooldown = 1800` s and `consecutiveLosses = 3`
the code requires a cooldown of 4500 s, not the 3600 s the spec states
(the spec's value matches the code's own comment `# 1.5x, 2x, 2.5x etc.`,
i.e. the multiplier `1 + 0.5 * (losses - 1)`); below two consecutive
losses the cooldown is the base value, as the spec states. -/
theorem c3_cooldown_multiplier :
    requiredCooldown 1800 3 = 4500 ∧
    requiredCooldown 1800 3 ≠ 1800 * (1 + (1 / 2) * 2) ∧
    requiredCooldown 1800 1 = 1800 ∧
    requiredCooldown 1800 0 = 1800 := by
  refine ⟨by norm_num [requiredCooldown], by norm_num [requiredCooldown], ?_, ?_⟩ <;>
    norm_num [requiredCooldown]

/-! ## risk_engine.py : record_trade -/

/-- `RiskManager.record_trade` (risk_engine.py lines 90-185).  The body
runs inside a `try` block; a `ZeroDivisionError` is caught at line 179 and
leaves every mutation made before the raising line in place.  Two raises
are possible: computing `pnl_pct` at line 114 with `entry_price = 0`, and
the drawdown division at line 146 with `peak_balance = 0`.  The returned
`Bool` records whether the body ran to completion. -/
def recordTrade (s : RiskState) (symbol side : String)
    (quantity price entryPrice currentBalance : ℚ)
    (pnlUsdArg pnlPctArg : Option ℚ) (now : ℚ) : RiskState × Bool :=
  if side = "SELL" ∧ pnlPctArg = none ∧ entryPrice = 0 then
    (s, false)
  else
    let pnlUsd := if side = "SELL" then pnlUsdArg.getD ((price - entryPrice) * quantity) else 0
    let pnlPct := if side = "SELL" then pnlPctArg.getD ((price - entryPrice) / entryPrice * 100)
      else 0
    let isWin := side = "SELL" ∧ 0 ≤ pnlUsd
    let s := { s with totalTrades := s.totalTrades + 1, dailyTrades := s.dailyTrades + 1 }
    let s :=
      if side = "SELL" then
        if 0 ≤ pnlUsd then
          let cw := s.consecutiveWins + 1
          { s with winningTrades := s.winningTrades + 1, consecutiveWins := cw,
                   consecutiveLosses := 0,
                   maxConsecutiveWins := max s.maxConsecutiveWins cw }
        else
          let cl := s.consecutiveLosses + 1
          { s with losingTrades := s.losingTrades + 1, consecutiveLosses := cl,
                   consecutiveWins := 0,
                   maxConsecutiveLosses := max s.maxConsecutiveLosses cl }
      else s
    let s := { s with
      dailyPnl := s.dailyPnl + (if side = "SELL" then pnlPct else 0),
      totalPnl := s.totalPnl + (if side = "SELL" then pnlUsd else 0),
      peakBalance := max s.peakBalance currentBalance }
    if s.peakBalance = 0 then
      (s, false)
    else
      let drawdown := (s.peakBalance - currentBalance) / s.peakBalance * 100
      let s := { s with
        maxDrawdownPct := max s.maxDrawdownPct drawdown,
        lastTradeTime := some now,
        tradeHistory := s.tradeHistory ++
          [{ timestamp := now, symbol := symbol, side := side, quantity := quantity,
             price := price, entryPrice := entryPrice, pnlUsd := pnlUsd, pnlPct := pnlPct,
             isWin := decide isWin, balance := currentBalance }] }
      (s, true)

/-! ## Claims C9, C10 -/

/-- C9: `peakBalance` is monotonically non-decreasing across every
`record_trade` call, for arbitrary `current_balance` arguments: the only
assignment is `peak_balance = max(peak_balance, current_balance)`
(risk_engine.py line 145), which also stands when a later line of the
`try` block raises. -/
theorem c9_peak_balance_monotone (s : RiskState) (symbol side : String)
    (quantity price entryPrice currentBalance : ℚ)
    (pnlUsdArg pnlPctArg : Option ℚ) (now : ℚ) :
    s.peakBalance ≤
      (recordTrade s symbol side quantity price entryPrice currentBalance
        pnlUsdArg pnlPctArg now).1.peakBalance := by
  unfold recordTrade
  dsimp only
  split
  · exact le_refl _
  · repeat' split
    all_goals exact le_sup_left

/-- C10: whenever the calendar date differs from `lastReset`, the daily
reset performed at the start of `can_trade` zeroes `dailyTrades` and
`dailyPnl`, moves `lastReset` to the current date, and clears
`lastTradeTime` — after which the cooldown test can never be active,
whatever the clock and cooldown length. -/
theorem c10_daily_reset_effects (s : RiskState) (today : ℕ)
    (h : today ≠ s.lastReset) :
    (checkDailyReset s today).dailyTrades = 0 ∧
    (checkDailyReset s today).dailyPnl = 0 ∧
    (checkDailyReset s today).lastReset = today ∧
    (checkDailyReset s today).lastTradeTime = none ∧
    ∀ nowSecs base : ℚ,
      cooldownActive (checkDailyReset s today).lastTradeTime nowSecs base = false := by
  refine ⟨?_, ?_, ?_, ?_, ?_⟩ <;> simp [checkDailyReset, h, cooldownActive]

/-- Witness for C10 at a concrete state: day 101 against a last reset on
day 100. -/
theorem c10_daily_reset_witness :
    (checkDailyReset (initRiskState (1 / 20) 3 100) 101).dailyTrades = 0 ∧
    (checkDailyReset (initRiskState (1 / 20) 3 100) 101).lastTradeTime = none ∧
    cooldownActive (checkDailyReset (initRiskState (1 / 20) 3 100) 101).lastTradeTime
      2000000 1800 = false := by
  have h := c10_daily_reset_effects (initRiskState (1 / 20) 3 100) 101 (by decide)
  exact ⟨h.1, h.2.2.2.1, h.2.2.2.2 2000000 1800⟩

/-! ## main.py : data model and rounding helpers -/

/-- One entry of `TradingBot.open_positions` (main.py lines 828-834);
`stranded` is the flag read by `_handle_stranded_positions`
(main.py line 1198). -/
structure Position where
  side : String
  quantity : ℚ
  entryPrice : ℚ
  entryTime : ℚ
  dust : Bool
  stranded : Bool
deriving Repr, DecidableEq

/-- `Decimal.quantize(..., rounding=ROUND_DOWN)` to `precision` decimal
places as used throughout main.py on non-negative quantities (where
rounding toward zero and flooring agree). -/
def floorToPrec (x : ℚ) (precision : ℕ) : ℚ :=
  ((⌊x * 10 ^ precision⌋ : ℤ) : ℚ) / 10 ^ precision

/-- `math.ceil(x * 10**precision) / 10**precision` (main.py line 687). -/
def ceilToPrec (x : ℚ) (precision : ℕ) : ℚ :=
  ((⌈x * 10 ^ precision⌉ : ℤ) : ℚ) / 10 ^ precision

/-- `math.isclose(a, b, rel_tol=relTol)` with the default `abs_tol = 0`:
`abs(a-b) <= rel_tol * max(abs(a), abs(b))`. -/
def mathIsClose (a b relTol : ℚ) : Prop :=
  |a - b| ≤ relTol * max |a| |b|

instance (a b relTol : ℚ) : Decidable (mathIsClose a b relTol) := by
  unfold mathIsClose; infer_instance

/-- `symbol.replace('USDT', '')` (main.py lines 420, 958, 1159). -/
def baseAssetOf (symbol : String) : String :=
  symbol.replace "USDT" ""

/-! ## main.py : position reconciliation (_validate_open_positions) -/

/-- The per-symbol body of `TradingBot._validate_open_positions`
(main.py lines 418-436): with zero (or negative) actual balance the
tracked position is deleted; with a relative mismatch beyond
`rel_tol=0.01` the tracked quantity is overwritten by the actual
balance; otherwise the position is kept unchanged. -/
def reconcileStep (p : Position) (actualQty : ℚ) : Option Position :=
  if actualQty ≤ 0 then none
  else if ¬ mathIsClose p.quantity actualQty (1 / 100) then
    some { p with quantity := actualQty }
  else some p

/-- `TradingBot._validate_open_positions` (main.py lines 413-442) over the
tracked position map, reading each symbol's base-asset balance. -/
def validateOpenPositions (positions : List (String × Position))
    (balances : String → ℚ) : List (String × Position) :=
  positions.filterMap fun sp =>
    match reconcileStep sp.2 (balances (baseAssetOf sp.1)) with
    | none => none
    | some p => some (sp.1, p)

/-! ## main.py : order sizing (_execute_trade) -/

/-- The BUY sizing of `TradingBot._execute_trade` (main.py lines 667-689):
risk amount `min(balance * riskPerTrade, balance * 0.1)`, divided by the
volatility adjustment `min(2, atr/price*100)` when an ATR is available and
positive, converted to a quantity, raised to `minQty` and then to the
min-notional quantity when below those bounds.  Returns the quantity
together with flags recording whether the min-quantity and min-notional
adjustments fired. -/
def buySizingTrace (balance riskPerTrade price minQty minNotional : ℚ)
    (precision : ℕ) (atr : Option ℚ) : ℚ × Bool × Bool :=
  let riskAmount := min (balance * riskPerTrade) (balance * (1 / 10))
  let riskAmount :=
    match atr with
    | some a => if 0 < a then riskAmount / min 2 (a / price * 100) else riskAmount
    | none => riskAmount
  let q := riskAmount / price
  let raisedMinQty := decide (q < minQty)
  let q := if q < minQty then minQty else q
  if q * price < minNotional then
    (max (ceilToPrec (minNotional / price) precision) minQty, raisedMinQty, true)
  else (q, raisedMinQty, false)

/-- Outcome of the SELL branch of `_execute_trade`: the raised
`ValueError`s, the direct market order used for sub-notional tracked
positions (main.py lines 737-744), or the regular order submission
(line 755). -/
inductive SellOutcome where
  | noBalance
  | belowMinQty (q : ℚ)
  | smallPositionOrder (q : ℚ)
  | notionalTooSmall (q : ℚ)
  | order (q : ℚ)
deriving Repr, DecidableEq

/-- The SELL sizing and validation of `TradingBot._execute_trade`
(main.py lines 691-755).  `hasPosition` is `symbol in open_positions`
(with entry price `entryPrice`), `available` the base-asset balance,
`precision` the decimal precision derived from the step size, and the
trading fee is `0.001` (main.py line 67).  A price drop above 30% from
entry turns the call into an emergency sale of the whole balance
(lines 711-716); `DOGEUSDT` quantities are floored to whole numbers after
being raised to at least 1 (lines 719-721).  A sub-notional sale with a
tracked position is submitted directly as a market order regardless of
how far below the minimum it is (lines 731-744). -/
def executeSellSizing (hasPosition : Bool) (entryPrice : ℚ)
    (available price minQty minNotional : ℚ) (precision : ℕ)
    (isDoge : Bool) : SellOutcome :=
  if available ≤ 0 then .noBalance
  else
    let q0 := floorToPrec (available * (1 - 1 / 1000)) precision
    let priceDrop := if hasPosition then (entryPrice - price) / entryPrice * 100 else 0
    let isEmergency := hasPosition && decide (30 < priceDrop)
    let q1 := if isEmergency then available else q0
    let q2 := if isDoge then ((⌊max q1 1⌋ : ℤ) : ℚ) else q1
    let positionValue := q2 * price
    if q2 < minQty then .belowMinQty q2
    else if positionValue < minNotional ∧ isEmergency = false then
      if hasPosition then .smallPositionOrder q2 else .notionalTooSmall q2
    else .order q2

/-! ## main.py : dust classification (_cleanup_dust_positions) -/

/-- The dust threshold of `TradingBot._cleanup_dust_positions`
(main.py line 1099): `max(5.0, Config.MIN_NOTIONAL * 0.5)`. -/
def dustThreshold (minNotional : ℚ) : ℚ :=
  max 5 (minNotional * (1 / 2))

/-- Modelled from the spec: the dust threshold the spec states,
`max($1, rules.minNotional * 0.2)`, written here only to be compared
with the source's `dustThreshold`. -/
def specDustThreshold (minNotional : ℚ) : ℚ :=
  max 1 (minNotional * (1 / 5))

/-- The per-position effect of `TradingBot._cleanup_dust_positions`
(main.py lines 1096-1151) for a position whose current price is
available: positions that are neither flagged dust nor swept by an
initial cleanup are skipped; otherwise the position is classified dust
exactly when `quantity * price` falls below `dustThreshold`; a dust
position is removed from tracking, and `_convert_dust_to_usdt` is called
only when the value exceeds $1 (line 1137).  Returns
(classified dust, removed, liquidation attempted). -/
def cleanupDustStep (initialCleanup : Bool) (p : Position)
    (currentPrice minNotional : ℚ) : Bool × Bool × Bool :=
  if !initialCleanup && !p.dust then (false, false, false)
  else
    let value := p.quantity * currentPrice
    if value < dustThreshold minNotional then (true, true, decide (1 < value))
    else (false, false, false)

/-! ## main.py : exit checks (_check_position_limits, _execute_stop_loss) -/

/-- The branch taken by `TradingBot._check_position_limits`. -/
inductive ExitAction where
  | stopLoss
  | takeProfit
  | hold
deriving Repr, DecidableEq

/-- `TradingBot._check_position_limits` (main.py lines 264-294): with a
tracked position and an available price, the PnL percentage relative to
entry (sign-aware for the side) triggers the stop-loss branch when
`pnlPct <= -abs(stopLossPct)` and the take-profit branch when
`pnlPct >= abs(takeProfitPct)`. -/
def checkPositionLimits (hasPosition priceAvailable isLong : Bool)
    (entry current stopLossPct takeProfitPct : ℚ) : ExitAction :=
  if !hasPosition then .hold
  else if !priceAvailable then .hold
  else
    let pnlPct := if isLong then (current - entry) / entry * 100
      else (entry - current) / entry * 100
    if pnlPct ≤ -|stopLossPct| then .stopLoss
    else if |takeProfitPct| ≤ pnlPct then .takeProfit
    else .hold

/-- Outcome of `TradingBot._execute_stop_loss`. -/
inductive StopLossResult where
  | noPosition
  | ghostRemoved
  | zeroQtyRemoved
  | submitted (q : ℚ)
deriving Repr, DecidableEq

/-- The validation and submission of `TradingBot._execute_stop_loss`
(main.py lines 948-1000): the sale is aborted only when no position is
tracked, no balance is available, or the floored quantity is zero; the
market sell of the floored available balance is otherwise submitted with
no minimum-notional check anywhere in the function (the min-notional gate
is bypassed; the function never reads `minNotional`). -/
def executeStopLoss (hasPosition : Bool) (available : ℚ) (precision : ℕ)
    (isDoge : Bool) : StopLossResult :=
  if !hasPosition then .noPosition
  else if available ≤ 0 then .ghostRemoved
  else
    let q := if isDoge then ((⌊available⌋ : ℤ) : ℚ) else floorToPrec available precision
    if q ≤ 0 then .zeroQtyRemoved
    else .submitted q

/-! ## Claims C4 - C8 -/

/-- The dust scenario position: 2 XRP held long. -/
def xrpPos : Position :=
  { side := "BUY", quantity := 2, entryPrice := 1 / 2, entryTime := 0,
    dust := false, stranded := false }

/-- A position worth $3 at a price of $1, between the spec's dust
threshold and the source's. -/
def threeDollarPos : Position :=
  { side := "BUY", quantity := 3, entryPrice := 1, entryTime := 0,
    dust := false, stranded := false }

/-- The reconciliation scenario position: 0.5 BTC tracked. -/
def btcPos : Position :=
  { side := "BUY", quantity := 1 / 2, entryPrice := 50000, entryTime := 0,
    dust := false, stranded := false }

/-- C4 counterexample: a position worth $3 with `minNotional = $10` is
classified dust by the code (threshold `max($5, 50% * minNotional) = $5`,
main.py line 1099), although its value is not below the threshold
`max($1, 20% * minNotional) = $2` stated by the claim. -/
theorem c4_dust_counterexample :
    (cleanupDustStep true threeDollarPos 1 10).1 = true ∧
    ¬(threeDollarPos.quantity * 1 < specDustThreshold 10) := by
  constructor
  · norm_num [cleanupDustStep, threeDollarPos, dustThreshold, max_def]
  · norm_num [threeDollarPos, specDustThreshold, max_def]

/-- C4 as amended: the dust classification computes
`value = quantity * currentPrice` and marks the position dust exactly when
`value < max($5, Config.MIN_NOTIONAL * 0.5)`; a dust position is removed
from tracking, and a liquidation to USDT is attempted exactly when such a
value also exceeds the $1 floor; for 2 XRP at $0.40 with
`minNotional = $10` the position is classified dust, removed, and no
liquidation is attempted. -/
theorem c4_dust_rule (p : Position) (currentPrice minNotional : ℚ) :
    ((cleanupDustStep true p currentPrice minNotional).1 = true ↔
      p.quantity * currentPrice < dustThreshold minNotional) ∧
    (cleanupDustStep true p currentPrice minNotional).2.1 =
      (cleanupDustStep true p currentPrice minNotional).1 ∧
    ((cleanupDustStep true p currentPrice minNotional).2.2 = true ↔
      (p.quantity * currentPrice < dustThreshold minNotional ∧
        1 < p.quantity * currentPrice)) ∧
    cleanupDustStep true xrpPos (2 / 5) 10 = (true, true, false) := by
  refine ⟨?_, ?_, ?_,
    by norm_num [cleanupDustStep, xrpPos, dustThreshold, max_def]⟩ <;>
    · simp only [cleanupDustStep, Bool.not_true, Bool.false_and, Bool.false_eq_true,
        if_false]
      split_ifs with h <;> simp_all

/-- C5 counterexample: a tracked position fully closed at a notional of
$4.995 — below `minNotional = $10` but not below 20% of it — has its
sell order submitted anyway (as a direct market order of the fee-adjusted
floored quantity, main.py lines 731-744), where the claim says no order is
submitted and the position is marked stranded. -/
theorem c5_sell_counterexample :
    executeSellSizing true 5 1 5 (1 / 1000) 10 3 false =
      SellOutcome.smallPositionOrder (999 / 1000) ∧
    ¬((999 / 1000 : ℚ) * 5 < 10 * (1 / 5)) ∧
    (999 / 1000 : ℚ) * 5 < 10 := by
  refine ⟨?_, by norm_num, by norm_num⟩
  norm_num [executeSellSizing, floorToPrec]

/-- C5 as amended: for every SELL sizing whose fee-adjusted floored
notional is below `minNotional`, is not an emergency sale, and clears the
minimum quantity: when the symbol has a tracked position the sale is
submitted directly as a market order for that quantity, regardless of the
20% threshold (the exchange may reject it, handled as a recoverable
error); when no position is tracked, no order is submitted and a
`ValueError` aborts the trade.  No path of `_execute_trade` marks a
position stranded. -/
theorem c5_sell_small_position
    (entryPrice available price minQty minNotional : ℚ) (precision : ℕ) (q : ℚ)
    (hav : 0 < available)
    (hq : q = floorToPrec (available * (1 - 1 / 1000)) precision)
    (hnd : ¬(30 < (entryPrice - price) / entryPrice * 100))
    (hminq : ¬(q < minQty))
    (hsub : q * price < minNotional) :
    executeSellSizing true entryPrice available price minQty minNotional precision false =
      SellOutcome.smallPositionOrder q ∧
    executeSellSizing false entryPrice available price minQty minNotional precision false =
      SellOutcome.notionalTooSmall q := by
  subst hq
  have h1 : ¬(available ≤ 0) := not_le.mpr hav
  have hminq2 : ¬ floorToPrec (available * (1 - 1000⁻¹)) precision < minQty := by
    simpa using hminq
  have hsub2 : floorToPrec (available * (1 - 1000⁻¹)) precision * price < minNotional := by
    simpa using hsub
  constructor <;>
    · simp [executeSellSizing, h1, hnd]
      rw [if_neg hminq2, if_pos hsub2]

/-- Witness for C5 at the concrete sub-notional close: $4.995 of a
tracked (and an untracked) position against a $10 minimum. -/
theorem c5_sell_small_position_witness :
    executeSellSizing true 5 1 5 (1 / 1000) 10 3 false =
      SellOutcome.smallPositionOrder (999 / 1000) ∧
    executeSellSizing false 5 1 5 (1 / 1000) 10 3 false =
      SellOutcome.notionalTooSmall (999 / 1000) := by
  have hfl : floorToPrec (1 * (1 - 1 / 1000)) 3 = (999 / 1000 : ℚ) := by
    norm_num [floorToPrec]
  exact c5_sell_small_position 5 1 5 (1 / 1000) 10 3 (999 / 1000)
    (by norm_num) hfl.symm (by norm_num) (by norm_num) (by norm_num)

/-- C6: reconciliation deletes a tracked position whose actual base-asset
balance is zero (or negative), overwrites the tracked quantity with the
actual balance when they differ by more than 1% relative tolerance, and
never creates a position for a symbol that was not already tracked. -/
theorem c6_reconcile (p : Position) (actualQty : ℚ) :
    (actualQty ≤ 0 → reconcileStep p actualQty = none) ∧
    (0 < actualQty → ¬ mathIsClose p.quantity actualQty (1 / 100) →
      reconcileStep p actualQty = some { p with quantity := actualQty }) ∧
    (∀ (ps : List (String × Position)) (bal : String → ℚ) (sym : String) (q : Position),
      (sym, q) ∈ validateOpenPositions ps bal → ∃ p0, (sym, p0) ∈ ps) := by
  refine ⟨?_, ?_, ?_⟩
  · intro h
    unfold reconcileStep
    rw [if_pos h]
  · intro h1 h2
    unfold reconcileStep
    rw [if_neg (not_le.mpr h1), if_pos h2]
  · intro ps bal sym q hmem
    simp only [validateOpenPositions, List.mem_filterMap] at hmem
    obtain ⟨⟨s0, p0⟩, hin, heq⟩ := hmem
    cases hrec : reconcileStep p0 (bal (baseAssetOf s0)) with
    | none =>
        rw [hrec] at heq
        exact absurd heq (by simp)
    | some pr =>
        rw [hrec] at heq
        simp only [Option.some.injEq, Prod.mk.injEq] at heq
        exact ⟨p0, heq.1 ▸ hin⟩

/-- Witness for C6: the tracked 0.5 BTC position is deleted against a
zero BTC balance, and overwritten against an actual balance of 0.6. -/
theorem c6_reconcile_witness :
    reconcileStep btcPos 0 = none ∧
    reconcileStep btcPos (3 / 5) = some { btcPos with quantity := 3 / 5 } := by
  have hfar : ¬ mathIsClose btcPos.quantity (3 / 5) (1 / 100) := by
    simp only [btcPos, mathIsClose]
    rw [show (1 / 2 - 3 / 5 : ℚ) = -(1 / 10) by norm_num, abs_neg,
      abs_of_pos (show (0 : ℚ) < 1 / 10 by norm_num),
      abs_of_pos (show (0 : ℚ) < 1 / 2 by norm_num),
      abs_of_pos (show (0 : ℚ) < 3 / 5 by norm_num),
      max_eq_right (show (1 / 2 : ℚ) ≤ 3 / 5 by norm_num)]
    norm_num
  exact ⟨(c6_reconcile btcPos 0).1 le_rfl,
    (c6_reconcile btcPos (3 / 5)).2.1 (by norm_num) hfar⟩

/-- C7: at balance $1000, riskPerTrade 1%, price $50,000, minQty 0.00001,
stepSize 0.00001 (precision 5), minNotional $10 and no volatility
adjustment, the BUY sizing computes
`riskAmount = min($10, $100) = $10` and quantity 0.0002 BTC with notional
exactly $10, triggering neither the min-quantity nor the min-notional
raise. -/
theorem c7_buy_sizing_scenario :
    buySizingTrace 1000 (1 / 100) 50000 (1 / 100000) 10 5 none =
      (1 / 5000, false, false) ∧
    min ((1000 : ℚ) * (1 / 100)) (1000 * (1 / 10)) = 10 ∧
    (1 / 5000 : ℚ) * 50000 = 10 := by
  refine ⟨?_, by norm_num, by norm_num⟩
  norm_num [buySizingTrace, ceilToPrec, min_def]

/-- C8: an open long position whose PnL percentage is at or below the
negative stop-loss percentage triggers the stop-loss branch of
`_check_position_limits`, and `_execute_stop_loss` submits the market
sell of the floored available balance whenever a position and a positive
floored quantity exist — it contains no minimum-notional gate at all, so
the sale is submitted even when the remaining notional is below
`minNotional`. -/
theorem c8_stop_loss_bypass
    (entry current stopLossPct takeProfitPct available : ℚ) (precision : ℕ)
    (hdrop : (current - entry) / entry * 100 ≤ -|stopLossPct|)
    (hav : 0 < available)
    (hq : 0 < floorToPrec available precision) :
    checkPositionLimits true true true entry current stopLossPct takeProfitPct =
      ExitAction.stopLoss ∧
    executeStopLoss true available precision false =
      StopLossResult.submitted (floorToPrec available precision) := by
  constructor
  · simp [checkPositionLimits, hdrop]
  · simp [executeStopLoss, not_le.mpr hav, not_le.mpr hq]

/-- Witness for C8: entry $100, current $90, stopLossPct 5% triggers the
exit, and a remaining 0.05 units worth $4.50 — far below a $10 minimum
notional — are still submitted for sale. -/
theorem c8_stop_loss_bypass_witness :
    checkPositionLimits true true true 100 90 5 3 = ExitAction.stopLoss ∧
    executeStopLoss true (1 / 20) 2 false = StopLossResult.submitted (1 / 20) ∧
    (1 / 20 : ℚ) * 90 < 10 := by
  have hfl : floorToPrec (1 / 20) 2 = (1 / 20 : ℚ) := by norm_num [floorToPrec]
  have h := c8_stop_loss_bypass 100 90 5 3 (1 / 20) 2
    (by rw [show |(5 : ℚ)| = 5 from abs_of_pos (by norm_num)]; norm_num)
    (by norm_num) (by rw [hfl]; norm_num)
  rw [hfl] at h
  exact ⟨h.1, h.2, by norm_num⟩
